import Mathlib

/-!
# Verification of the e-commerce frontend's cart/order core

Shallow embedding of the client-side cart store (`src/lib/store.ts`), the
checkout coordinator (`src/app/cart/page.tsx`), the axios error interceptor
(`src/lib/api.ts`), the orders page (`src/app/orders/page.tsx`) and the
payment form (`src/app/checkout/[orderId]/page.tsx`).

Conventions of the embedding:
* JS `number` values used as integers (quantities, stock) become `Int`;
  prices become `ℚ` (the claims under study do not involve float rounding).
* Zustand `set` calls become pure state transformers on the store's state.
* `types.ts` is absent from the sources; the record shapes below carry
  exactly the fields the embedded logic reads (display-only fields such as
  `name`, `description`, `sku` are omitted as they never reach the logic).
* JS string truthiness (`a || b` falls through on `undefined` and `""`)
  is modelled by `jsOr` below.
-/

/-- Product, as consumed by the cart logic: `id`, `price`, `stock`
(= the spec's stockCeiling). -/
structure Product where
  id : String
  price : ℚ
  stock : Int
  deriving DecidableEq, Repr

/-- `CartItem` from `types.ts` usage: `{ product, quantity }`. -/
structure CartItem where
  product : Product
  quantity : Int
  deriving DecidableEq, Repr

/-- `addItem` from `src/lib/store.ts` lines 47-60: if a line for the same
`product.id` exists, map over the lines replacing its quantity by the sum
`i.quantity + item.quantity`; otherwise append the new item. -/
def addItem (items : List CartItem) (item : CartItem) : List CartItem :=
  match items.find? (fun i => i.product.id == item.product.id) with
  | some _ =>
      items.map (fun i =>
        if i.product.id == item.product.id then
          { i with quantity := i.quantity + item.quantity }
        else i)
  | none => items ++ [item]

/-- `removeItem` from `src/lib/store.ts` lines 61-64: filter keeping lines
whose `product.id` differs from `productId`. -/
def removeItem (items : List CartItem) (productId : String) : List CartItem :=
  items.filter (fun i => i.product.id != productId)

/-- `updateQuantity` from `src/lib/store.ts` lines 65-70: map over the lines
replacing the quantity of every line whose `product.id` equals `productId`
by the given `quantity` (verbatim, no clamping in the store). -/
def updateQuantity (items : List CartItem) (productId : String)
    (quantity : Int) : List CartItem :=
  items.map (fun i =>
    if i.product.id == productId then { i with quantity := quantity } else i)

/-- `clearCart` from `src/lib/store.ts` line 71: `set({ items: [] })`. -/
def clearCart : List CartItem := []

/-- `total` from `src/lib/store.ts` lines 72-75:
`items.reduce((sum, item) => sum + Number(item.product.price) * item.quantity, 0)`. -/
def total (items : List CartItem) : ℚ :=
  items.foldl (fun sum item => sum + item.product.price * (item.quantity : ℚ)) 0

/-- The list of product identifiers present in the cart. -/
def keys (items : List CartItem) : List String :=
  items.map (fun i => i.product.id)

/-- One call against the cart store's mutating interface. -/
inductive CartOp where
  | add (item : CartItem)
  | remove (productId : String)
  | update (productId : String) (quantity : Int)
  | clear
  deriving Repr

/-- Apply one store call to the cart state. -/
def applyOp (items : List CartItem) : CartOp → List CartItem
  | .add item => addItem items item
  | .remove pid => removeItem items pid
  | .update pid q => updateQuantity items pid q
  | .clear => clearCart

/-- Run a sequence of store calls from a starting cart state. -/
def runOps (items : List CartItem) (ops : List CartOp) : List CartItem :=
  ops.foldl applyOp items

/-- The spec's quantity invariant: every line satisfies
`1 ≤ quantity ≤ stockCeiling`. -/
def inBounds (items : List CartItem) : Prop :=
  ∀ i ∈ items, 1 ≤ i.quantity ∧ i.quantity ≤ i.product.stock

instance : DecidablePred inBounds := fun items =>
  inferInstanceAs (Decidable (∀ i ∈ items, _ ∧ _))

/-! ## Basic lemmas about the store operations -/

/-- `updateQuantity` and `addItem`-merge never change a line's `product`. -/
lemma updateQuantity_keys (items : List CartItem) (pid : String) (q : Int) :
    keys (updateQuantity items pid q) = keys items := by
  simp only [keys, updateQuantity, List.map_map]
  apply List.map_congr_left
  intro i _
  by_cases h : i.product.id = pid <;> simp [h]

lemma total_foldl_acc (items : List CartItem) (a : ℚ) :
    items.foldl (fun sum item => sum + item.product.price * (item.quantity : ℚ)) a
      = a + (items.map (fun i => i.product.price * (i.quantity : ℚ))).sum := by
  induction items generalizing a with
  | nil => simp
  | cons x xs ih =>
      simp only [List.foldl_cons, ih, List.map_cons, List.sum_cons]
      ring

lemma mem_updateQuantity (items : List CartItem) (pid : String) (q : Int)
    (j : CartItem) (hj : j ∈ updateQuantity items pid q) :
    ∃ i ∈ items, (i.product.id = pid ∧ j = { i with quantity := q }) ∨
      (i.product.id ≠ pid ∧ j = i) := by
  simp only [updateQuantity, List.mem_map] at hj
  obtain ⟨i, hi, hji⟩ := hj
  refine ⟨i, hi, ?_⟩
  by_cases h : i.product.id == pid
  · exact Or.inl ⟨by simpa using h, by simp [h] at hji; exact hji.symm⟩
  · exact Or.inr ⟨by simpa using h, by simp [h] at hji; exact hji.symm⟩

lemma updateQuantity_absent (items : List CartItem) (pid : String) (q : Int)
    (h : pid ∉ keys items) : updateQuantity items pid q = items := by
  induction items with
  | nil => rfl
  | cons x xs ih =>
      simp only [keys, List.map_cons, List.mem_cons, not_or] at h
      have hx : (x.product.id == pid) = false := by
        simp [BEq.beq]
        exact fun hc => h.1 hc.symm
      simp only [updateQuantity, List.map_cons, hx, Bool.false_eq_true,
        if_false]
      have := ih (by simpa [keys] using h.2)
      simpa [updateQuantity] using this

lemma updateQuantity_comp (items : List CartItem) (pid : String)
    (q1 q2 : Int) :
    updateQuantity (updateQuantity items pid q1) pid q2
      = updateQuantity items pid q2 := by
  simp only [updateQuantity, List.map_map]
  apply List.map_congr_left
  intro i _
  by_cases h : i.product.id = pid <;> simp [h]

/-! ## Concrete fixtures used by witnesses and counterexamples -/

/-- A sample product with stock ceiling 5. -/
def prodA : Product := { id := "A", price := 10, stock := 5 }

/-- A sample product with stock ceiling 2. -/
def prodB : Product := { id := "B", price := 2, stock := 2 }

/-! ## C6: total -/

/-- `total` as a state-passing call: the source (`store.ts` lines 72-75)
reads `get().items` and issues no `set`, so the call returns the computed
sum and leaves the cart state exactly as it was. -/
def totalCall (items : List CartItem) : ℚ × List CartItem :=
  (total items, items)

/-- C6: for any cart contents, `total()` returns Σ(unitPrice × quantity)
over all cart lines, and it is pure: the cart state after the call is the
state before it. -/
theorem C6_total_sum_pure (items : List CartItem) :
    (totalCall items).1
        = (items.map (fun i => i.product.price * (i.quantity : ℚ))).sum ∧
    (totalCall items).2 = items :=
  ⟨by simpa [totalCall, total] using total_foldl_acc items 0, rfl⟩

/-! ## C8: updateQuantity is a no-op on absent ids and last-write-wins -/

/-- C8: `updateQuantity` on a productRef absent from the cart leaves the
cart unchanged, and two successive `updateQuantity` calls on the same
productRef are equivalent to the second alone (last-write-wins). -/
theorem C8_updateQuantity_absent_lastwrite (items : List CartItem)
    (pid : String) (q1 q2 : Int) :
    (pid ∉ keys items → updateQuantity items pid q1 = items) ∧
    updateQuantity (updateQuantity items pid q1) pid q2
      = updateQuantity items pid q2 :=
  ⟨fun h => updateQuantity_absent items pid q1 h,
   updateQuantity_comp items pid q1 q2⟩

/-- C8 witness: `updateQuantity("A", 5)` then `updateQuantity("A", 1)`
equals a single `updateQuantity("A", 1)` (leaving quantity 1), and an
update for the absent id "B" is a no-op. -/
theorem C8_witness :
    (updateQuantity (updateQuantity [⟨prodA, 2⟩] "A" 5) "A" 1
        = updateQuantity [⟨prodA, 2⟩] "A" 1) ∧
    updateQuantity [⟨prodA, 2⟩] "B" 7 = [⟨prodA, 2⟩] :=
  ⟨(C8_updateQuantity_absent_lastwrite [⟨prodA, 2⟩] "A" 5 1).2,
   (C8_updateQuantity_absent_lastwrite [⟨prodA, 2⟩] "B" 7 7).1 (by decide)⟩

/-! ## C9: removeItem frame properties -/

/-- C9: `removeItem(productRef)` removes exactly the matching lines, keeps
every non-matching line, preserves the relative order of the remaining
lines (the result is a sublist of the input), and is the identity when no
line matches. -/
theorem C9_removeItem_frame (items : List CartItem) (pid : String) :
    (∀ i ∈ removeItem items pid, i.product.id ≠ pid) ∧
    (∀ i ∈ items, i.product.id ≠ pid → i ∈ removeItem items pid) ∧
    (removeItem items pid).Sublist items ∧
    (pid ∉ keys items → removeItem items pid = items) := by
  refine ⟨?_, ?_, ?_, ?_⟩
  · intro i hi
    simp only [removeItem, List.mem_filter, bne_iff_ne, ne_eq] at hi
    exact hi.2
  · intro i hi hne
    simp only [removeItem, List.mem_filter, bne_iff_ne, ne_eq]
    exact ⟨hi, hne⟩
  · exact List.filter_sublist _
  · intro h
    apply List.filter_eq_self.mpr
    intro i hi
    simp only [bne_iff_ne, ne_eq, decide_eq_true_eq]
    intro hc
    exact h (by
      simpa [keys, hc] using List.mem_map_of_mem (fun i => i.product.id) hi)

/-- C9 witness: removing the absent id "C" from a two-line cart leaves it
unchanged. -/
theorem C9_witness :
    removeItem [⟨prodA, 2⟩, ⟨prodB, 1⟩] "C" = [⟨prodA, 2⟩, ⟨prodB, 1⟩] :=
  (C9_removeItem_frame [⟨prodA, 2⟩, ⟨prodB, 1⟩] "C").2.2.2 (by decide)

/-! ## C1: quantity bounds under sequences of store calls

The source's `addItem` and `updateQuantity` apply quantities verbatim (sum,
resp. overwrite) with no clamping, so the `[1, stockCeiling]` bound is an
invariant only of those call sequences whose arguments themselves respect
it. `boundedStep` states that side condition per call. -/

/-- Side condition on one store call, relative to the cart state it runs
against, under which the unclamped mutation preserves `inBounds`. -/
def boundedStep (items : List CartItem) : CartOp → Prop
  | .add it => 1 ≤ it.quantity ∧ it.quantity ≤ it.product.stock ∧
      ∀ i ∈ items, i.product.id = it.product.id →
        i.quantity + it.quantity ≤ i.product.stock
  | .remove _ => True
  | .update pid q =>
      ∀ i ∈ items, i.product.id = pid → 1 ≤ q ∧ q ≤ i.product.stock
  | .clear => True

/-- `boundedRun items ops`: every call in `ops` satisfies `boundedStep`
against the state it actually runs on. -/
def boundedRun : List CartItem → List CartOp → Prop
  | _, [] => True
  | items, op :: ops => boundedStep items op ∧ boundedRun (applyOp items op) ops

instance boundedStepDec : (items : List CartItem) → (op : CartOp) →
    Decidable (boundedStep items op)
  | items, .add _ => inferInstanceAs (Decidable (_ ∧ _ ∧ ∀ i ∈ items, _))
  | _, .remove _ => inferInstanceAs (Decidable True)
  | items, .update _ _ => inferInstanceAs (Decidable (∀ i ∈ items, _))
  | _, .clear => inferInstanceAs (Decidable True)

instance boundedRunDec : (items : List CartItem) → (ops : List CartOp) →
    Decidable (boundedRun items ops)
  | _, [] => inferInstanceAs (Decidable True)
  | items, op :: ops =>
      haveI := boundedRunDec (applyOp items op) ops
      inferInstanceAs (Decidable (_ ∧ _))

lemma inBounds_applyOp (items : List CartItem) (op : CartOp)
    (h : inBounds items) (hs : boundedStep items op) :
    inBounds (applyOp items op) := by
  cases op with
  | add it =>
      obtain ⟨h1, h2, h3⟩ := hs
      show inBounds (addItem items it)
      unfold addItem
      cases hf : items.find? (fun i => i.product.id == it.product.id) with
      | some j =>
          intro x hx
          simp only [List.mem_map] at hx
          obtain ⟨i, hi, rfl⟩ := hx
          by_cases hid : i.product.id = it.product.id
          · have hq := (h i hi).1
            simp only [hid, beq_self_eq_true, if_true]
            exact ⟨by omega, h3 i hi hid⟩
          · simpa [hid] using h i hi
      | none =>
          intro x hx
          rcases List.mem_append.mp hx with hx | hx
          · exact h x hx
          · rw [List.mem_singleton.mp hx]; exact ⟨h1, h2⟩
  | remove pid =>
      intro x hx
      exact h x (List.mem_of_mem_filter hx)
  | update pid q =>
      intro x hx
      obtain ⟨i, hi, hcase⟩ := mem_updateQuantity items pid q x hx
      rcases hcase with ⟨hid, rfl⟩ | ⟨_, rfl⟩
      · exact hs i hi hid
      · exact h x hi
  | clear =>
      intro x hx
      cases hx

lemma inBounds_runOps (items : List CartItem) (ops : List CartOp)
    (h : inBounds items) (hb : boundedRun items ops) :
    inBounds (runOps items ops) := by
  induction ops generalizing items with
  | nil => exact h
  | cons op ops ih =>
      simp only [runOps, List.foldl_cons]
      exact ih (applyOp items op) (inBounds_applyOp items op h hb.1) hb.2

/-- C1 counterexample: the store does not clamp. `updateQuantity("A", 0)`
drives the quantity below 1, and adding 3 then 4 units of a product with
stock ceiling 5 drives it to 7 > 5; both violate `[1, stockCeiling]`. -/
theorem C1_counterexample :
    ¬ inBounds (updateQuantity (addItem [] ⟨prodA, 3⟩) "A" 0) ∧
    ¬ inBounds (addItem (addItem [] ⟨prodA, 3⟩) ⟨prodA, 4⟩) := by
  decide

/-- C1 (amended): the store applies mutations verbatim, without clamping;
for every sequence of store calls in which each `addItem` carries a
quantity within `[1, stock]` and keeps the merged sum at most the matched
line's stock, and each `updateQuantity` value lies within `[1, stock]` of
every matched line, every CartLine's quantity stays within
`[1, stockCeiling]`. -/
theorem C1_bounds_conditional (items : List CartItem) (ops : List CartOp)
    (h : inBounds items) (hb : boundedRun items ops) :
    inBounds (runOps items ops) :=
  inBounds_runOps items ops h hb

/-- C1 witness: a concrete in-bounds run — add 3 of product A (stock 5),
set it to 5, add 1 of product B (stock 2), remove A — stays in bounds. -/
theorem C1_witness :
    inBounds (runOps []
      [.add ⟨prodA, 3⟩, .update "A" 5, .add ⟨prodB, 1⟩, .remove "A"]) :=
  C1_bounds_conditional []
    [.add ⟨prodA, 3⟩, .update "A" 5, .add ⟨prodB, 1⟩, .remove "A"]
    (by decide) (by decide)

/-! ## C5: addItem merge semantics and key uniqueness -/

lemma keys_addItem_nodup (items : List CartItem) (it : CartItem)
    (h : (keys items).Nodup) : (keys (addItem items it)).Nodup := by
  unfold addItem
  cases hf : items.find? (fun i => i.product.id == it.product.id) with
  | some j =>
      have hk : keys (items.map (fun i =>
          if i.product.id == it.product.id then
            { i with quantity := i.quantity + it.quantity }
          else i)) = keys items := by
        simp only [keys, List.map_map]
        apply List.map_congr_left
        intro i _
        by_cases hid : i.product.id = it.product.id <;> simp [hid]
      rw [hk]; exact h
  | none =>
      have habs : it.product.id ∉ keys items := by
        intro hmem
        simp only [keys, List.mem_map] at hmem
        obtain ⟨i, hi, hid⟩ := hmem
        have := List.find?_eq_none.mp hf i hi
        simp [hid] at this
      simp only [keys, List.map_append, List.map_cons, List.map_nil]
      rw [List.nodup_append]
      refine ⟨h, List.nodup_singleton _, ?_⟩
      intro a ha hb
      rw [List.mem_singleton] at hb
      subst hb
      exact habs ha

lemma keys_nodup_applyOp (items : List CartItem) (op : CartOp)
    (h : (keys items).Nodup) : (keys (applyOp items op)).Nodup := by
  cases op with
  | add it => exact keys_addItem_nodup items it h
  | remove pid =>
      exact List.Nodup.sublist
        (List.Sublist.map _ (List.filter_sublist _)) h
  | update pid q =>
      show (keys (updateQuantity items pid q)).Nodup
      rw [updateQuantity_keys]; exact h
  | clear => exact List.nodup_nil

lemma keys_nodup_runOps (items : List CartItem) (ops : List CartOp)
    (h : (keys items).Nodup) : (keys (runOps items ops)).Nodup := by
  induction ops generalizing items with
  | nil => exact h
  | cons op ops ih =>
      simp only [runOps, List.foldl_cons]
      exact ih _ (keys_nodup_applyOp items op h)

lemma addItem_merge_mem (items : List CartItem) (it j : CartItem)
    (hj : j ∈ items) (hid : j.product.id = it.product.id) :
    CartItem.mk j.product (j.quantity + it.quantity) ∈ addItem items it := by
  unfold addItem
  cases hf : items.find? (fun i => i.product.id == it.product.id) with
  | some _ => exact List.mem_map.mpr ⟨j, hj, by simp [hid]⟩
  | none =>
      exfalso
      have := List.find?_eq_none.mp hf j hj
      simp [hid] at this

lemma addItem_keep_mem (items : List CartItem) (it k : CartItem)
    (hk : k ∈ items) (hne : k.product.id ≠ it.product.id) :
    k ∈ addItem items it := by
  unfold addItem
  cases items.find? (fun i => i.product.id == it.product.id) with
  | some _ => exact List.mem_map.mpr ⟨k, hk, by simp [hne]⟩
  | none => exact List.mem_append_left _ hk

/-- C5 counterexample: the merge is NOT clamped to stockCeiling. Adding 3
then 4 units of product A (stock ceiling 5) leaves quantity 7, whereas the
claimed clamped sum would be `min (3+4) 5 = 5`. -/
theorem C5_counterexample :
    ((addItem (addItem [] ⟨prodA, 3⟩) ⟨prodA, 4⟩).map (fun i => i.quantity)
        = [7]) ∧
    min ((3 : Int) + 4) prodA.stock = 5 := by decide

/-- C5 (amended): `addItem` for a product that already has a CartLine
merges into that existing line so that its quantity becomes the exact,
unclamped sum of the old and added quantities; every line for a different
product is kept; the de-duplication keeps at most one CartLine per product
identifier (keys stay Nodup after `addItem`, and every cart reachable from
the empty cart has Nodup keys). -/
theorem C5_addItem_merge_unique (items : List CartItem) (it : CartItem)
    (ops : List CartOp) (hnd : (keys items).Nodup) :
    (keys (addItem items it)).Nodup ∧
    (∀ j ∈ items, j.product.id = it.product.id →
        CartItem.mk j.product (j.quantity + it.quantity) ∈ addItem items it) ∧
    (∀ k ∈ items, k.product.id ≠ it.product.id → k ∈ addItem items it) ∧
    (keys (runOps [] ops)).Nodup :=
  ⟨keys_addItem_nodup items it hnd,
   fun j hj hid => addItem_merge_mem items it j hj hid,
   fun k hk hne => addItem_keep_mem items it k hk hne,
   keys_nodup_runOps [] ops List.nodup_nil⟩

/-- C5 witness: adding 3 more units of product A to a cart holding 2 units
of A (and 1 of B) yields the merged line with quantity 2 + 3, with keys
still duplicate-free. -/
theorem C5_witness :
    CartItem.mk prodA (2 + 3) ∈ addItem [⟨prodA, 2⟩, ⟨prodB, 1⟩] ⟨prodA, 3⟩ ∧
    (keys (addItem [⟨prodA, 2⟩, ⟨prodB, 1⟩] ⟨prodA, 3⟩)).Nodup :=
  ⟨(C5_addItem_merge_unique [⟨prodA, 2⟩, ⟨prodB, 1⟩] ⟨prodA, 3⟩ []
      (by decide)).2.1 ⟨prodA, 2⟩ (List.mem_cons_self _ _) rfl,
   (C5_addItem_merge_unique [⟨prodA, 2⟩, ⟨prodB, 1⟩] ⟨prodA, 3⟩ []
      (by decide)).1⟩

/-! ## Auth store (`store.ts` lines 23-41) -/

/-- User record; the embedded logic only tests its presence. -/
structure User where
  id : String
  deriving DecidableEq, Repr

/-- Auth store state: `{ user, token }`. -/
structure AuthState where
  user : Option User
  token : Option String
  deriving DecidableEq, Repr

/-- Initial auth state (`store.ts` lines 26-27): `user: null, token: null`. -/
def initAuth : AuthState := { user := none, token := none }

/-- `setAuth` from `store.ts` lines 28-31: `set({ user, token })`. -/
def setAuth (_ : AuthState) (u : User) (t : String) : AuthState :=
  { user := some u, token := some t }

/-- `logout` from `store.ts` lines 32-35: `set({ user: null, token: null })`. -/
def logout (_ : AuthState) : AuthState := { user := none, token := none }

/-- One call against the auth store's mutating interface. -/
inductive AuthOp where
  | set (u : User) (t : String)
  | logout
  deriving Repr

/-- Apply one auth store call. -/
def applyAuthOp (s : AuthState) : AuthOp → AuthState
  | .set u t => setAuth s u t
  | .logout => logout s

/-- Auth state after a sequence of `setAuth`/`logout` calls from startup. -/
def runAuth (ops : List AuthOp) : AuthState :=
  ops.foldl applyAuthOp initAuth

lemma foldl_auth_inv (ops : List AuthOp) (s : AuthState)
    (hs : s.user = none ↔ s.token = none) :
    ((ops.foldl applyAuthOp s).user = none
      ↔ (ops.foldl applyAuthOp s).token = none) := by
  induction ops generalizing s with
  | nil => exact hs
  | cons op ops ih =>
      cases op with
      | set u t => exact ih _ (by simp [applyAuthOp, setAuth])
      | logout => exact ih _ (by simp [applyAuthOp, logout])

/-- In every reachable auth state, `user` and `token` are absent together:
`setAuth` populates both and `logout` clears both. -/
lemma runAuth_user_token (ops : List AuthOp) :
    ((runAuth ops).user = none ↔ (runAuth ops).token = none) :=
  foldl_auth_inv ops initAuth (by simp [initAuth])

/-! ## API error normalization (`api.ts` response interceptor) -/

/-- JS `a || b` on an optional string: falls through to `b` when `a` is
`undefined` or the empty string (both falsy). -/
def jsOr (a : Option String) (b : String) : String :=
  match a with
  | some s => if s.isEmpty then b else s
  | none => b

/-- JS truthiness of an optional string. -/
def strTruthy : Option String → Bool
  | none => false
  | some s => !s.isEmpty

/-- The `error.response.data` payload as the interceptor reads it:
optional `message` and `error` fields (the latter is `errorMsg` here,
`error` being unavailable as a field name). -/
structure ResponseData where
  message : Option String
  errorMsg : Option String
  deriving DecidableEq, Repr

/-- An axios error as seen by the response interceptor: optional server
response data, whether the request was dispatched (`error.request`), and
the error object's own `message`. -/
structure ApiError where
  response : Option ResponseData
  requestMade : Bool
  message : Option String
  deriving DecidableEq, Repr

/-- The response interceptor from `api.ts`: the `userMessage` attached to
a failed call — server `data.message || data.error || 'An error occurred'`
when a response arrived, the network-error text when the request got no
response, else the error's own message or a generic fallback. -/
def userMessage (e : ApiError) : String :=
  match e.response with
  | some d => jsOr d.message (jsOr d.errorMsg "An error occurred")
  | none =>
      if e.requestMade then "Network error. Please check your connection."
      else jsOr e.message "An unexpected error occurred"

/-! ## Order submission (`cart/page.tsx` handleCheckout) -/

/-- One `{productId, quantity}` pair of the order-creation payload
(cart page lines 39-44). -/
structure OrderReqItem where
  productId : String
  quantity : Int
  deriving DecidableEq, Repr

/-- The order returned by the server; the client reads `id`, `status`
(a server string: PENDING / PAID / CANCELED) and `totalAmount`. -/
structure Order where
  id : String
  status : String
  totalAmount : ℚ
  deriving DecidableEq, Repr

/-- Result of the awaited `orderAPI.create` call: the created order, or
the interceptor-normalized error the `catch` receives. -/
inductive CreateResult where
  | ok (order : Order)
  | err (e : ApiError)
  deriving Repr

/-- Observable outcome of one `handleCheckout` run: the two early returns,
the success navigation, or the caught failure toast. -/
inductive CheckoutOutcome where
  | unauthenticated
  | emptyCart
  | success (orderId : String)
  | failed (msg : String)
  deriving DecidableEq, Repr

/-- Effects of one `handleCheckout` run: its outcome, the cart state it
leaves behind, and the order-creation request payloads it issued. -/
structure CheckoutRun where
  outcome : CheckoutOutcome
  items : List CartItem
  requests : List (List OrderReqItem)
  deriving DecidableEq, Repr

/-- The `orderData.items` payload built from the cart (cart page
lines 39-44). -/
def orderData (items : List CartItem) : List OrderReqItem :=
  items.map (fun i => { productId := i.product.id, quantity := i.quantity })

/-- The message computed in `handleCheckout`'s catch (cart page line 54):
`error.userMessage || error.response?.data?.message || 'Failed to create
order. Please try again.'`. -/
def checkoutErrorMessage (e : ApiError) : String :=
  jsOr (some (userMessage e))
    (jsOr (e.response.bind (fun d => d.message))
      "Failed to create order. Please try again.")

/-- `handleCheckout` from cart page lines 23-61, with the result of the
awaited `orderAPI.create` call supplied by the environment: no user →
login redirect, `items.length === 0` → empty-cart toast, else one create
request; on success `clearCart()` then navigate, on failure toast the
computed message leaving the cart alone. -/
def handleCheckout (user : Option User) (items : List CartItem)
    (api : CreateResult) : CheckoutRun :=
  match user with
  | none => { outcome := .unauthenticated, items := items, requests := [] }
  | some _ =>
      if items.length = 0 then
        { outcome := .emptyCart, items := items, requests := [] }
      else
        match api with
        | .ok ord =>
            { outcome := .success ord.id, items := clearCart,
              requests := [orderData items] }
        | .err e =>
            { outcome := .failed (checkoutErrorMessage e), items := items,
              requests := [orderData items] }

/-! ## Payment form (`checkout/[orderId]/page.tsx` CheckoutForm) -/

/-- Result of `stripe.confirmPayment`: redirect on success, or a provider
error object. -/
inductive StripeResult where
  | redirected
  | failed (message : Option String)
  deriving DecidableEq, Repr

/-- Effects of the payment form's `handleSubmit` (checkout page lines
31-56): it calls `stripe.confirmPayment` and either lets Stripe redirect
or shows `error.message || 'Payment failed. Please try again.'`. The page
never touches the cart store (it does not import `useCartStore`), so the
cart state passes through unchanged; the pair returned is (cart state,
error toast if any). -/
def paymentHandleSubmit (items : List CartItem) (res : StripeResult) :
    List CartItem × Option String :=
  match res with
  | .redirected => (items, none)
  | .failed m => (items, some (jsOr m "Payment failed. Please try again."))

/-! ## Orders page (`orders/page.tsx`) -/

/-- `fetchOrders` + status rendering from `orders/page.tsx`: the displayed
statuses are read from the `GET /orders` response body on success (and the
list stays empty on failure). The page reads no URL query parameter (no
`useSearchParams` anywhere), so the model takes the return-redirect's
query string as an explicit input and — exactly like the source — ignores
it. -/
def ordersPageStatuses (_query : List (String × String))
    (resp : Except ApiError (List Order)) : List String :=
  match resp with
  | .ok data => data.map (fun o => o.status)
  | .error _ => []

/-! ## C2: successful checkout -/

/-- C2: with an authenticated session and a non-empty cart, when the
order-creation call succeeds `handleCheckout` issues exactly one request
whose payload carries the `{productId, quantity}` pair of every cart line,
clears the cart, and the cart stays empty through the subsequent payment
step even when that step fails (the payment form never mutates the cart). -/
theorem C2_checkout_success (u : User) (items : List CartItem) (ord : Order)
    (hne : items ≠ []) :
    (handleCheckout (some u) items (.ok ord)).requests = [orderData items] ∧
    (∀ i ∈ items, OrderReqItem.mk i.product.id i.quantity ∈ orderData items) ∧
    (handleCheckout (some u) items (.ok ord)).items = [] ∧
    ∀ res : StripeResult,
      (paymentHandleSubmit (handleCheckout (some u) items (.ok ord)).items
        res).1 = [] := by
  have hlen : ¬ items.length = 0 := by
    simpa [List.length_eq_zero] using hne
  refine ⟨?_, ?_, ?_, ?_⟩
  · simp [handleCheckout, hlen]
  · intro i hi
    exact List.mem_map.mpr ⟨i, hi, rfl⟩
  · simp [handleCheckout, hlen, clearCart]
  · intro res
    cases res <;> simp [handleCheckout, hlen, clearCart, paymentHandleSubmit]

/-- C2 witness: the spec's own scenario — cart `[{A, qty 2}]`,
authenticated — issues the single request `[{productId A, quantity 2}]`
and empties the cart. -/
theorem C2_witness :
    (handleCheckout (some ⟨"u1"⟩) [⟨prodA, 2⟩]
        (.ok ⟨"o1", "PENDING", 20⟩)).requests = [orderData [⟨prodA, 2⟩]] ∧
    (handleCheckout (some ⟨"u1"⟩) [⟨prodA, 2⟩]
        (.ok ⟨"o1", "PENDING", 20⟩)).items = [] :=
  ⟨(C2_checkout_success ⟨"u1"⟩ [⟨prodA, 2⟩] ⟨"o1", "PENDING", 20⟩
      (List.cons_ne_nil _ _)).1,
   (C2_checkout_success ⟨"u1"⟩ [⟨prodA, 2⟩] ⟨"o1", "PENDING", 20⟩
      (List.cons_ne_nil _ _)).2.2.1⟩

/-! ## C3: precondition order, no network call on failure -/

/-- C3: for every auth state reachable through the auth store, the
preconditions are checked in order with first failure winning: with no
credential token the run ends `unauthenticated` (whatever the cart), and
with a token but an empty cart it ends `emptyCart`; in both cases no
order-creation request is issued. -/
theorem C3_preconditions (ops : List AuthOp) (items : List CartItem)
    (api : CreateResult) :
    ((runAuth ops).token = none →
      (handleCheckout (runAuth ops).user items api).outcome
          = .unauthenticated ∧
      (handleCheckout (runAuth ops).user items api).requests = []) ∧
    ((runAuth ops).token ≠ none → items = [] →
      (handleCheckout (runAuth ops).user items api).outcome = .emptyCart ∧
      (handleCheckout (runAuth ops).user items api).requests = []) := by
  constructor
  · intro ht
    have hu : (runAuth ops).user = none := (runAuth_user_token ops).mpr ht
    rw [hu]
    exact ⟨rfl, rfl⟩
  · intro ht hitems
    cases hcase : (runAuth ops).user with
    | none => exact absurd ((runAuth_user_token ops).mp hcase) ht
    | some u =>
        rw [hitems]
        exact ⟨rfl, rfl⟩

/-- C3 witness: at startup (no token) a non-empty cart still fails
`unauthenticated` with no request; after a login, an empty cart fails
`emptyCart` with no request. -/
theorem C3_witness :
    ((handleCheckout (runAuth []).user [⟨prodA, 1⟩]
        (.ok ⟨"o1", "PENDING", 10⟩)).outcome = .unauthenticated ∧
     (handleCheckout (runAuth []).user [⟨prodA, 1⟩]
        (.ok ⟨"o1", "PENDING", 10⟩)).requests = []) ∧
    ((handleCheckout (runAuth [.set ⟨"u1"⟩ "tok"]).user []
        (.ok ⟨"o1", "PENDING", 10⟩)).outcome = .emptyCart ∧
     (handleCheckout (runAuth [.set ⟨"u1"⟩ "tok"]).user []
        (.ok ⟨"o1", "PENDING", 10⟩)).requests = []) :=
  ⟨(C3_preconditions [] [⟨prodA, 1⟩] (.ok ⟨"o1", "PENDING", 10⟩)).1 rfl,
   (C3_preconditions [.set ⟨"u1"⟩ "tok"] [] (.ok ⟨"o1", "PENDING", 10⟩)).2
      (by decide) rfl⟩

/-! ## C4: failed order creation leaves the cart alone, message sourcing -/

lemma jsOr_isEmpty_false (a : Option String) (b : String)
    (hb : b.isEmpty = false) : (jsOr a b).isEmpty = false := by
  unfold jsOr
  cases a with
  | none => exact hb
  | some s =>
      by_cases hs : s.isEmpty
      · simpa [hs] using hb
      · simp [hs]

/-- The interceptor's `userMessage` is never the empty string: every
branch ends in a nonempty fallback. -/
lemma userMessage_ne_empty (e : ApiError) :
    (userMessage e).isEmpty = false := by
  unfold userMessage
  cases e.response with
  | some d => exact jsOr_isEmpty_false _ _ (jsOr_isEmpty_false _ _ (by decide))
  | none =>
      by_cases hq : e.requestMade
      · simpa [hq] using (by decide :
          ("Network error. Please check your connection.").isEmpty = false)
      · simpa [hq] using jsOr_isEmpty_false e.message _ (by decide)

/-- Since `userMessage` is always truthy, the `catch` in `handleCheckout`
always surfaces it. -/
lemma checkoutErrorMessage_eq (e : ApiError) :
    checkoutErrorMessage e = userMessage e := by
  unfold checkoutErrorMessage jsOr
  simp [userMessage_ne_empty e]

/-- C4: when the order-creation request fails, the cart is left exactly as
it was (no line added, removed or modified, not cleared), the failure
surfaces as `failed msg`, and `msg` is the server's `message` field when
one is available (nonempty), else the server's `error` field when
available, else a generic client-side fallback fixed without the server. -/
theorem C4_checkout_failure (u : User) (items : List CartItem) (e : ApiError)
    (hne : items ≠ []) :
    (handleCheckout (some u) items (.err e)).items = items ∧
    (handleCheckout (some u) items (.err e)).outcome
        = .failed (checkoutErrorMessage e) ∧
    (∀ d m, e.response = some d → d.message = some m → m.isEmpty = false →
        checkoutErrorMessage e = m) ∧
    (∀ d m, e.response = some d → strTruthy d.message = false →
        d.errorMsg = some m → m.isEmpty = false →
        checkoutErrorMessage e = m) ∧
    (∀ d, e.response = some d → strTruthy d.message = false →
        strTruthy d.errorMsg = false →
        checkoutErrorMessage e = "An error occurred") ∧
    (e.response = none → e.requestMade = true →
        checkoutErrorMessage e
          = "Network error. Please check your connection.") := by
  have hlen : ¬ items.length = 0 := by
    simpa [List.length_eq_zero] using hne
  refine ⟨by simp [handleCheckout, hlen], by simp [handleCheckout, hlen],
    ?_, ?_, ?_, ?_⟩
  · intro d m hd hm hne'
    rw [checkoutErrorMessage_eq]
    simp [userMessage, hd, hm, jsOr, hne']
  · intro d m hd hmf he hne'
    rw [checkoutErrorMessage_eq]
    cases hm : d.message with
    | some s =>
        have hs : s.isEmpty = true := by
          simpa [strTruthy, hm] using hmf
        simp [userMessage, hd, hm, he, jsOr, hs, hne']
    | none => simp [userMessage, hd, hm, he, jsOr, hne']
  · intro d hd hmf hef
    rw [checkoutErrorMessage_eq]
    cases hm : d.message with
    | some s =>
        have hs : s.isEmpty = true := by
          simpa [strTruthy, hm] using hmf
        cases he : d.errorMsg with
        | some t =>
            have ht : t.isEmpty = true := by
              simpa [strTruthy, he] using hef
            simp [userMessage, hd, hm, he, jsOr, hs, ht]
        | none => simp [userMessage, hd, hm, he, jsOr, hs]
    | none =>
        cases he : d.errorMsg with
        | some t =>
            have ht : t.isEmpty = true := by
              simpa [strTruthy, he] using hef
            simp [userMessage, hd, hm, he, jsOr, ht]
        | none => simp [userMessage, hd, hm, he, jsOr]
  · intro hd hq
    rw [checkoutErrorMessage_eq]
    simp [userMessage, hd, hq]

/-- C4 witness: a failed create with server payload
`{message: "Out of stock"}` leaves the one-line cart unchanged and
surfaces exactly that server message. -/
theorem C4_witness :
    (handleCheckout (some ⟨"u1"⟩) [⟨prodA, 2⟩]
        (.err ⟨some ⟨some "Out of stock", none⟩, true, none⟩)).items
      = [⟨prodA, 2⟩] ∧
    checkoutErrorMessage ⟨some ⟨some "Out of stock", none⟩, true, none⟩
      = "Out of stock" :=
  ⟨(C4_checkout_failure ⟨"u1"⟩ [⟨prodA, 2⟩]
      ⟨some ⟨some "Out of stock", none⟩, true, none⟩
      (List.cons_ne_nil _ _)).1,
   (C4_checkout_failure ⟨"u1"⟩ [⟨prodA, 2⟩]
      ⟨some ⟨some "Out of stock", none⟩, true, none⟩
      (List.cons_ne_nil _ _)).2.2.1 ⟨some "Out of stock", none⟩
      "Out of stock" rfl rfl (by decide)⟩

/-! ## C7: the payment return-redirect is untrusted -/

/-- C7: the status the client displays for each order is exactly the one
in the server's `GET /orders` response body, for every value of the
return-redirect's query string (`?payment=success`, a provider transaction
id, or anything else): the rendered statuses do not depend on the query at
all, so no callback parameter can by itself make an order display as PAID
or CONFIRMED. -/
theorem C7_callback_untrusted (q1 q2 : List (String × String))
    (orders : List Order) (resp : Except ApiError (List Order)) :
    ordersPageStatuses q1 (.ok orders) = orders.map (fun o => o.status) ∧
    ordersPageStatuses q1 resp = ordersPageStatuses q2 resp := by
  constructor
  · rfl
  · cases resp <;> rfl

/-! ## C10: the cart page's quantity controls clamp at the call site -/

/-- The decrement control (cart page line 119):
`updateQuantity(item.product.id, Math.max(1, item.quantity - 1))` for the
rendered line `i`. -/
def decClick (items : List CartItem) (i : CartItem) : List CartItem :=
  updateQuantity items i.product.id (max 1 (i.quantity - 1))

/-- The increment control (cart page line 127):
`updateQuantity(item.product.id, Math.min(item.product.stock,
item.quantity + 1))` for the rendered line `i`. -/
def incClick (items : List CartItem) (i : CartItem) : List CartItem :=
  updateQuantity items i.product.id
    (min i.product.stock (i.quantity + 1))

/-- The increment button's `disabled` condition (cart page line 128):
`item.quantity >= item.product.stock`. -/
def incDisabled (i : CartItem) : Bool :=
  decide (i.product.stock ≤ i.quantity)

/-- C10: the quantity controls clamp at the call site, not in the store.
For a cart with unique product ids, all lines within `[1, stock]`, and a
rendered line `i`, both the decrement click (which passes `max 1 (q-1)`)
and the increment click (which passes `min stock (q+1)`) leave every line
within `[1, stock]`, and the increment button is disabled exactly when
`q ≥ stock`. -/
theorem C10_ui_clamps (items : List CartItem) (i : CartItem)
    (hnd : (keys items).Nodup) (hi : i ∈ items) (hb : inBounds items) :
    inBounds (decClick items i) ∧ inBounds (incClick items i) ∧
    (incDisabled i = true ↔ i.product.stock ≤ i.quantity) := by
  have hinj : ∀ ⦃x⦄, x ∈ items → ∀ ⦃y⦄, y ∈ items →
      x.product.id = y.product.id → x = y :=
    List.inj_on_of_nodup_map hnd
  have hbi := hb i hi
  refine ⟨?_, ?_, by simp [incDisabled]⟩
  · intro x hx
    obtain ⟨j, hj, hcase⟩ :=
      mem_updateQuantity items i.product.id (max 1 (i.quantity - 1)) x hx
    rcases hcase with ⟨hid, rfl⟩ | ⟨_, rfl⟩
    · have hji : j = i := hinj hj hi hid
      subst hji
      have hbj := hb j hj
      constructor
      · simp
      · simp only []
        omega
    · exact hb x hj
  · intro x hx
    obtain ⟨j, hj, hcase⟩ := mem_updateQuantity items i.product.id
      (min i.product.stock (i.quantity + 1)) x hx
    rcases hcase with ⟨hid, rfl⟩ | ⟨_, rfl⟩
    · have hji : j = i := hinj hj hi hid
      subst hji
      have hbj := hb j hj
      constructor
      · simp only []
        omega
      · simp only []
        omega
    · exact hb x hj

/-- C10 witness: on the one-line cart `[{A, qty 5}]` with stock ceiling 5,
both clicks keep the cart within bounds. -/
theorem C10_witness :
    inBounds (decClick [⟨prodA, 5⟩] ⟨prodA, 5⟩) ∧
    inBounds (incClick [⟨prodA, 5⟩] ⟨prodA, 5⟩) :=
  ⟨(C10_ui_clamps [⟨prodA, 5⟩] ⟨prodA, 5⟩ (by decide)
      (List.mem_cons_self _ _) (by decide)).1,
   (C10_ui_clamps [⟨prodA, 5⟩] ⟨prodA, 5⟩ (by decide)
      (List.mem_cons_self _ _) (by decide)).2.1⟩
